import Mathlib

/-!
Shallow embedding of the validation-and-statistics engine of the clinical
trial analyzer (`clinical_trial_analyzer.py`).

Rows of the input CSV are modelled as `RawRow` (all values as text; a
missing cell in the `patient_id` / `trial_site` columns is `none`).  The
coercions performed in `load_and_validate_data` are modelled by `parseDate`
(`pd.to_datetime(..., format := percent-Y-m-d, errors := coerce)`),
`parseAge` (`pd.to_numeric(..., errors := coerce)`) and `parseBool`
(`astype(str).str.lower().isin(["true","1"])`); a coercion failure becomes
`none`, the embedding of pandas `NaT` / `NaN`.  Machine floats are idealised
as rationals (`ℚ`).
-/

/-- One raw CSV row, values as read from the file.  `patient_id` and
`trial_site` are `none` when the cell is empty (pandas `NaN`). -/
structure RawRow where
  patient_id : Option String
  trial_site : Option String
  enrollment_date : String
  age : String
  adverse_event : String
  completed_trial : String
deriving DecidableEq

/-- Numeric value of a decimal digit character. -/
def dval (c : Char) : Nat := c.toNat - 48

/-- Leap-year rule used by the Gregorian calendar (as in Python `datetime`). -/
def isLeap (y : Nat) : Bool := (y % 4 = 0 && y % 100 ≠ 0) || y % 400 = 0

/-- Number of days of month `m` in year `y`. -/
def daysInMonth (y m : Nat) : Nat :=
  if m = 2 then (if isLeap y then 29 else 28)
  else if m = 4 ∨ m = 6 ∨ m = 9 ∨ m = 11 then 30
  else 31

/-- Embedding of `pd.to_datetime(s, format := percent-Y-m-d, errors := coerce)`:
a ten character `YYYY-MM-DD` string naming a real calendar date parses to
`some (y, m, d)`, anything else coerces to `none` (pandas `NaT`). -/
def parseDate (s : String) : Option (Nat × Nat × Nat) :=
  match s.toList with
  | [a, b, c, d, s1, e, f, s2, g, h] =>
    if s1 = '-' ∧ s2 = '-' ∧ [a, b, c, d, e, f, g, h].all Char.isDigit then
      let y := ((dval a * 10 + dval b) * 10 + dval c) * 10 + dval d
      let m := dval e * 10 + dval f
      let dd := dval g * 10 + dval h
      if 1 ≤ y ∧ 1 ≤ m ∧ m ≤ 12 ∧ 1 ≤ dd ∧ dd ≤ daysInMonth y m then
        some (y, m, dd)
      else none
    else none
  | _ => none

/-- Split a character list on a separator character. -/
def splitOnChar (sep : Char) (cs : List Char) : List (List Char) :=
  cs.foldr (fun c acc =>
    match acc with
    | [] => [[c]]
    | p :: ps => if c = sep then [] :: p :: ps else (c :: p) :: ps) [[]]

/-- Parse a non-empty all-digit character list to a natural number. -/
def digitsVal (cs : List Char) : Option Nat :=
  if cs.isEmpty then none
  else if cs.all Char.isDigit then
    some (cs.foldl (fun a c => a * 10 + dval c) 0)
  else none

/-- Embedding of `pd.to_numeric(s, errors := coerce)` on the `age` column:
an optionally signed decimal numeral parses to its rational value, anything
else coerces to `none` (pandas `NaN`). -/
def parseAge (s : String) : Option ℚ :=
  let signed : Bool × List Char :=
    match s.toList with
    | '-' :: rest => (true, rest)
    | '+' :: rest => (false, rest)
    | cs => (false, cs)
  match splitOnChar '.' signed.2 with
  | [ip] => (digitsVal ip).map (fun n => if signed.1 then -(n : ℚ) else (n : ℚ))
  | [ip, fp] =>
    if ip.isEmpty ∧ fp.isEmpty then none
    else
      match (if ip.isEmpty then some 0 else digitsVal ip),
            (if fp.isEmpty then some 0 else digitsVal fp) with
      | some i, some f =>
        let q : ℚ := (i : ℚ) + (f : ℚ) / ((10 : ℚ) ^ fp.length)
        some (if signed.1 then -q else q)
      | _, _ => none
  | _ => none

/-- Lower-case a string character by character (`str.lower()`). -/
def lowerChars (s : String) : String := String.mk (s.toList.map Char.toLower)

/-- Embedding of `astype(str).str.lower().isin(["true", "1"])`. -/
def parseBool (s : String) : Bool :=
  lowerChars s == "true" || lowerChars s == "1"

/-- A typed candidate record: the content of one row of the DataFrame after
the coercions of `load_and_validate_data`. -/
structure Candidate where
  patient_id : Option String
  trial_site : Option String
  enrollment_date : Option (Nat × Nat × Nat)
  age : Option ℚ
  adverse_event : Bool
  completed_trial : Bool
deriving DecidableEq

/-- Coerce one raw row into a typed candidate record (lines 70-82 of the
source: per-column conversion of the DataFrame). -/
def parseRow (r : RawRow) : Candidate :=
  { patient_id := r.patient_id
    trial_site := r.trial_site
    enrollment_date := parseDate r.enrollment_date
    age := parseAge r.age
    adverse_event := parseBool r.adverse_event
    completed_trial := parseBool r.completed_trial }

/-- The candidate sequence derived from the raw input rows. -/
def candidates (rows : List RawRow) : List Candidate := rows.map parseRow

/-- The age clauses of the invalid-row mask and of the reason check (source
lines 87-89 and 105): the age is `NaN`, negative, or above 150.  Comparing
`NaN` with pandas yields `False`, so the `none` case is covered exactly by
the separate `isna` disjunct. -/
def ageInvalid : Option ℚ → Bool
  | none => true
  | some q => decide (q < 0) || decide (q > 150)

/-- The invalid-row mask of source lines 85-92. -/
def invalidMask (c : Candidate) : Bool :=
  c.enrollment_date.isNone || ageInvalid c.age ||
  c.patient_id.isNone || c.trial_site.isNone

/-- Whether the coerced `age` column of the frame holds floats: pandas keeps
`int64` only when every cell is an integer numeral; any coercion failure
(`NaN`) or fractional value forces `float64`. -/
def ageColIsFloat (rows : List RawRow) : Bool :=
  rows.any (fun r =>
    match parseAge r.age with
    | none => true
    | some q => q.den != 1)

/-- Pad a string with leading zeros up to length `n`. -/
def padLeftZeros (s : String) (n : Nat) : String :=
  if s.length ≥ n then s else String.mk (List.replicate (n - s.length) '0') ++ s

/-- Number of decimal digits needed to write the nonnegative rational `a`
exactly (the shortest form Python would print for the float). -/
def fracDigits (a : ℚ) : Nat :=
  ((List.range 21).filter (fun k => (a * (10 : ℚ) ^ k).den == 1)).headD 20

/-- How Python prints a float with an exact short decimal form: an integral
value gains a trailing `.0`, a fractional one is printed with its shortest
decimal expansion, negative values with a leading minus sign. -/
def pyFloatRepr (q : ℚ) : String :=
  let a : ℚ := if q < 0 then -q else q
  let k := fracDigits a
  let m := (a * (10 : ℚ) ^ k).num.toNat
  let base :=
    if k = 0 then toString m ++ ".0"
    else
      let s := padLeftZeros (toString m) (k + 1)
      s.dropRight k ++ "." ++ s.takeRight k
  if q < 0 then "-" ++ base else base

/-- The text interpolated for `row.age` in the f-string of source line 106:
the **coerced** column value.  `NaN` prints as `nan`; in a float column an
integral age prints with a trailing `.0`; in an int column it prints bare. -/
def showAgeVal (colFloat : Bool) (a : Option ℚ) : String :=
  match a with
  | none => "nan"
  | some q => if colFloat then pyFloatRepr q else toString q.num

/-- The age reason string of source line 106. -/
def ageReason (colFloat : Bool) (a : Option ℚ) : String :=
  "Invalid age: " ++ showAgeVal colFloat a

/-- The reason list built for one flagged row (source lines 102-110), in the
fixed check order date, age, patient id, trial site. -/
def reasonsOf (colFloat : Bool) (c : Candidate) : List String :=
  (if c.enrollment_date.isNone then ["Invalid enrollment date"] else []) ++
  (if ageInvalid c.age then [ageReason colFloat c.age] else []) ++
  (if c.patient_id.isNone then ["Missing patient ID"] else []) ++
  (if c.trial_site.isNone then ["Missing trial site"] else [])

/-- The WorkingSet: rows surviving the mask, original order, index reset
(source line 128: `self.df = self.df[~invalid_mask].reset_index(drop=True)`). -/
def workingSet (rows : List RawRow) : List Candidate :=
  (candidates rows).filter (fun c => !(invalidMask c))

/-- The InvalidSet: flagged rows with their reason lists, original order
(source lines 101-114: `self.invalid_records`). -/
def invalidSet (rows : List RawRow) : List (Candidate × List String) :=
  ((candidates rows).filter invalidMask).map
    (fun c => (c, reasonsOf (ageColIsFloat rows) c))

/-- The required column set of source lines 56-57. -/
def requiredCols : List String :=
  ["patient_id", "trial_site", "enrollment_date", "age",
   "adverse_event", "completed_trial"]

/-- Missing-column computation of source line 58. -/
def missingCols (cols : List String) : List String :=
  requiredCols.filter (fun c => !(cols.contains c))

/-- Outcome of `load_and_validate_data`: schema failure (line 59-63), empty
working set failure (lines 136-140), or success with the partition. -/
inductive LoadResult where
  | schemaError (missing : List String)
  | emptyWorkingSet (invalids : List (Candidate × List String))
  | ok (working : List Candidate) (invalids : List (Candidate × List String))
deriving DecidableEq

/-- The pipeline of `load_and_validate_data`, from the header and raw rows. -/
def loadAndValidate (cols : List String) (rows : List RawRow) : LoadResult :=
  match missingCols cols with
  | [] =>
    if (workingSet rows).isEmpty then .emptyWorkingSet (invalidSet rows)
    else .ok (workingSet rows) (invalidSet rows)
  | m => .schemaError m

/-- `load_and_validate_data` returned `False`. -/
def isFailure : LoadResult → Bool
  | .ok _ _ => false
  | _ => true

/-! ## Statistics and cross-analysis engines -/

/-- Round-half-to-even to an integer, the rounding Python `round` applies. -/
def rhalfEven (x : ℚ) : ℤ :=
  if x - ⌊x⌋ = (1 : ℚ) / 2 then (if ⌊x⌋ % 2 = 0 then ⌊x⌋ else ⌊x⌋ + 1)
  else round x

/-- `round(x, 2)`. -/
def round2 (x : ℚ) : ℚ := (rhalfEven (x * 100) : ℚ) / 100

/-- Mean of a list of rationals (`0` on the empty list, which pandas renders
as `NaN`; the engines only take the mean of non-empty selections). -/
def meanQ (xs : List ℚ) : ℚ := xs.sum / (xs.length : ℚ)

/-- The non-null ages of a record list (pandas `mean` skips `NaN`). -/
def ageVals (l : List Candidate) : List ℚ := l.filterMap (fun c => c.age)

/-- `df["completed_trial"].sum()` over a selection. -/
def countCompleted (l : List Candidate) : Nat :=
  l.countP (fun c => c.completed_trial)

/-- `df["adverse_event"].sum()` over a selection. -/
def countAdverse (l : List Candidate) : Nat :=
  l.countP (fun c => c.adverse_event)

/-- Site label of a record (`trial_site`; all WorkingSet records carry one). -/
def siteName (c : Candidate) : String := c.trial_site.getD ""

/-- The distinct members of a string list in order of first appearance. -/
def firstUniques : List String → List String
  | [] => []
  | s :: rest => s :: firstUniques (rest.filter (fun t => t != s))
termination_by l => l.length
decreasing_by
  simp only [List.length_cons]
  exact Nat.lt_succ_of_le (List.length_filter_le _ _)

/-- `df["trial_site"].value_counts().to_dict()`: the mapping from site label
to the number of records at that site. -/
def siteCounts (l : List Candidate) : List (String × Nat) :=
  (firstUniques (l.map siteName)).map
    (fun s => (s, l.countP (fun c => siteName c == s)))

/-- The statistics report of `calculate_statistics` (source lines 150-184). -/
structure Stats where
  total_patients : Nat
  patients_per_site : List (String × Nat)
  average_age : ℚ
  completion_rate_percent : ℚ
  adverse_event_rate_percent : ℚ
  completion_rate_with_adverse_percent : ℚ
  completion_rate_without_adverse_percent : ℚ
  valid_records : Nat
  invalid_records : Nat
  invalid_record_details : List (Candidate × List String)
deriving DecidableEq

/-- Body of `calculate_statistics` on a non-empty frame (source lines
155-184). -/
def computeStats (l : List Candidate) (inv : List (Candidate × List String)) :
    Stats :=
  let n := l.length
  let withA := l.filter (fun c => c.adverse_event)
  let withoutA := l.filter (fun c => !c.adverse_event)
  { total_patients := n
    patients_per_site := siteCounts l
    average_age := round2 (meanQ (ageVals l))
    completion_rate_percent :=
      round2 ((countCompleted l : ℚ) / (n : ℚ) * 100)
    adverse_event_rate_percent :=
      round2 ((countAdverse l : ℚ) / (n : ℚ) * 100)
    completion_rate_with_adverse_percent :=
      if withA.length > 0 then
        round2 ((countCompleted withA : ℚ) / (withA.length : ℚ) * 100)
      else 0
    completion_rate_without_adverse_percent :=
      if withoutA.length > 0 then
        round2 ((countCompleted withoutA : ℚ) / (withoutA.length : ℚ) * 100)
      else 0
    valid_records := n
    invalid_records := inv.length
    invalid_record_details := inv }

/-- Bucket edges of the age-group `pd.cut` (source line 314). -/
def bucketEdges : List ℚ := [0, 35, 50, 65, 150]

/-- Bucket labels of the age-group `pd.cut` (source line 315). -/
def bucketLabels : List String := ["18-35", "36-50", "51-65", "65+"]

/-- `pd.cut(age, bins := [0, 35, 50, 65, 150], labels := ...)` for one age:
half-open intervals, left edge exclusive, right edge inclusive; an age
outside every interval gets `none` (pandas `NaN`). -/
def ageGroupOf (q : ℚ) : Option String :=
  if 0 < q ∧ q ≤ 35 then some "18-35"
  else if 35 < q ∧ q ≤ 50 then some "36-50"
  else if 50 < q ∧ q ≤ 65 then some "51-65"
  else if 65 < q ∧ q ≤ 150 then some "65+"
  else none

/-- Membership of age `q` in cut interval `i` (edges left-exclusive,
right-inclusive). -/
def memBucket (q : ℚ) (i : Nat) : Prop :=
  bucketEdges.getD i 0 < q ∧ q ≤ bucketEdges.getD (i + 1) 0

instance (q : ℚ) (i : Nat) : Decidable (memBucket q i) :=
  inferInstanceAs (Decidable (_ ∧ _))

/-- Index of the bucket the cut assigns to an in-range age. -/
def bucketIdx (q : ℚ) : Nat :=
  if q ≤ 35 then 0 else if q ≤ 50 then 1 else if q ≤ 65 then 2 else 3

/-- Insert a string into an ascending list. -/
def insertSorted (s : String) : List String → List String
  | [] => [s]
  | t :: ts => if t < s then t :: insertSorted s ts else s :: t :: ts

/-- Sort a string list ascending (`groupby` sorts its keys). -/
def sortStrings (l : List String) : List String := l.foldr insertSorted []

/-- `groupby("trial_site").agg(...)` of source lines 306-310: per site (keys
ascending) the sum, count and rounded mean of `completed_trial`, the sum of
`adverse_event`, and the rounded mean age. -/
def sitePerf (l : List Candidate) :
    List (String × Nat × Nat × ℚ × Nat × ℚ) :=
  (sortStrings (firstUniques (l.map siteName))).map (fun s =>
    let g := l.filter (fun c => siteName c == s)
    (s, countCompleted g, g.length,
     round2 ((countCompleted g : ℚ) / (g.length : ℚ)),
     countAdverse g, round2 (meanQ (ageVals g))))

/-- `groupby("age_group").agg(...)` of source lines 316-318 over the zipped
(record, bucket) column: for each of the four category labels the sum, count
and rounded mean of `completed_trial`; the mean of an empty bucket is `none`
(pandas `NaN`). -/
def ageGroupAnalysis (pairs : List (Candidate × Option String)) :
    List (String × Nat × Nat × Option ℚ) :=
  bucketLabels.map (fun lbl =>
    let g := (pairs.filter (fun p => p.2 == some lbl)).map (fun p => p.1)
    (lbl, countCompleted g, g.length,
     if g.length > 0 then some (round2 ((countCompleted g : ℚ) / (g.length : ℚ)))
     else none))

/-- The three numeric columns of the correlation analysis (source line 321). -/
def fieldNames : List String := ["age", "adverse_event", "completed_trial"]

/-- Numeric value of a correlation column for one record (booleans as 0/1). -/
def fieldVal (name : String) (c : Candidate) : ℚ :=
  if name == "age" then c.age.getD 0
  else if name == "adverse_event" then (if c.adverse_event then 1 else 0)
  else (if c.completed_trial then 1 else 0)

/-- Deviations from the column mean. -/
def devs (name : String) (l : List Candidate) : List ℚ :=
  let xs := l.map (fieldVal name)
  xs.map (fun x => x - meanQ xs)

/-- One Pearson correlation entry of `df[numeric_cols].corr()`, represented
by its defining sums `(Σ dx·dy, Σ dx², Σ dy²)`; the reported coefficient is
`Σ dx·dy / sqrt(Σ dx² · Σ dy²)` and is fully determined by this triple.  A
zero-variance column yields `none` (pandas `NaN`). -/
def corrEntry (l : List Candidate) (a b : String) : Option (ℚ × ℚ × ℚ) :=
  let dx := devs a l
  let dy := devs b l
  let sxx := (dx.map (fun x => x * x)).sum
  let syy := (dy.map (fun y => y * y)).sum
  if sxx = 0 ∨ syy = 0 then none
  else some (((dx.zip dy).map (fun p => p.1 * p.2)).sum, sxx, syy)

/-- The full 3×3 correlation table (source lines 320-322). -/
def corrMatrix (l : List Candidate) :
    List ((String × String) × Option (ℚ × ℚ × ℚ)) :=
  fieldNames.flatMap (fun a => fieldNames.map (fun b => ((a, b), corrEntry l a b)))

/-- The report of `get_advanced_analysis` (source lines 324-328). -/
structure AdvOutput where
  site_performance : List (String × Nat × Nat × ℚ × Nat × ℚ)
  age_group_analysis : List (String × Nat × Nat × Option ℚ)
  correlations : List ((String × String) × Option (ℚ × ℚ × ℚ))
deriving DecidableEq

/-- The mutable state of a `TrialDataAnalyzer`: the possibly unloaded frame
(`self.df`, `none` before loading), the derived `age_group` column written
into the frame by `get_advanced_analysis` (`none` until first written), and
`self.invalid_records`. -/
structure AnalyzerState where
  df : Option (List Candidate)
  ageGroupCol : Option (List (Option String))
  invalid : List (Candidate × List String)
deriving DecidableEq

/-- `calculate_statistics` (source lines 150-184): reads the state, returns
`none` for the empty report `{}` when no data is loaded or the frame is
empty, and never writes the state. -/
def calculateStatistics (s : AnalyzerState) : Option Stats :=
  match s.df with
  | none => none
  | some l => if l.isEmpty then none else some (computeStats l s.invalid)

/-- `get_advanced_analysis` (source lines 300-328): returns `none` (the `{}`
report) on a missing or empty frame, otherwise writes the derived
`age_group` column into the frame (`self.df["age_group"] = pd.cut(...)`,
line 313) and returns the report. -/
def getAdvancedAnalysis (s : AnalyzerState) : AnalyzerState × Option AdvOutput :=
  match s.df with
  | none => (s, none)
  | some l =>
    if l.isEmpty then (s, none)
    else
      let col := l.map (fun c => c.age.bind ageGroupOf)
      ({ s with ageGroupCol := some col },
       some { site_performance := sitePerf l
              age_group_analysis := ageGroupAnalysis (l.zip col)
              correlations := corrMatrix l })

/-- The site-grading `CASE` expression of SQL query 4 (source lines
878-883): closed lower thresholds on the rounded completion percentage. -/
def siteGrade (rate : ℚ) : String :=
  if rate ≥ 90 then "A (Excellent)"
  else if rate ≥ 70 then "B (Good)"
  else if rate ≥ 50 then "C (Fair)"
  else "D (Poor)"

/-! ## Concrete inputs used by witnesses and counterexamples -/

/-- A raw row whose age text is unparseable, all other fields valid. -/
def rowAbc : RawRow :=
  { patient_id := some "P001", trial_site := some "SiteA",
    enrollment_date := "2023-01-15", age := "abc",
    adverse_event := "false", completed_trial := "true" }

/-- A fully valid raw row with age 20. -/
def rowValid : RawRow :=
  { patient_id := some "P001", trial_site := some "SiteA",
    enrollment_date := "2023-01-15", age := "20",
    adverse_event := "false", completed_trial := "true" }

/-- A candidate record whose age failed numeric coercion. -/
def cNoAge : Candidate :=
  { patient_id := some "P001", trial_site := some "SiteA",
    enrollment_date := some (2023, 1, 15), age := none,
    adverse_event := false, completed_trial := true }

/-- A fully valid candidate record. -/
def cValid : Candidate :=
  { patient_id := some "P001", trial_site := some "SiteA",
    enrollment_date := some (2023, 1, 15), age := some 20,
    adverse_event := false, completed_trial := true }

/-- An analyzer state holding one valid record, `age_group` never written. -/
def sValid : AnalyzerState :=
  { df := some [cValid], ageGroupCol := none, invalid := [] }

/-- An analyzer state before any data is loaded. -/
def sNoData : AnalyzerState :=
  { df := none, ageGroupCol := none, invalid := [] }

/-! ## Helper lemmas -/

theorem length_filter_add_length_filter_not {α : Type} (p : α → Bool)
    (l : List α) :
    (l.filter p).length + (l.filter (fun a => !p a)).length = l.length := by
  induction l with
  | nil => rfl
  | cons a t ih =>
    cases h : p a <;> simp [List.filter_cons, h] <;> omega

/-! ## Claims -/

/-- Claim C4: partitioning is total — the WorkingSet and InvalidSet sizes
add up to the input size — and both partitions are sublists of the candidate
sequence, hence preserve relative input order (a stable left-to-right
split). -/
theorem c4_partition_total_stable (rows : List RawRow) :
    (workingSet rows).length + (invalidSet rows).length = rows.length ∧
    (workingSet rows).Sublist (candidates rows) ∧
    ((invalidSet rows).map (fun p => p.1)).Sublist (candidates rows) := by
  refine ⟨?_, List.filter_sublist _, ?_⟩
  · have h := length_filter_add_length_filter_not invalidMask (candidates rows)
    simp only [workingSet, invalidSet, List.length_map, candidates] at h ⊢
    omega
  · have h : ((invalidSet rows).map (fun p => p.1)) =
        (candidates rows).filter invalidMask := by
      simp only [invalidSet, List.map_map]
      exact List.map_id _
    rw [h]
    exact List.filter_sublist _

/-- Claim C5: every WorkingSet record satisfies all validity predicates at
once: a parsed age in [0, 150] (inclusive at both bounds), a parseable
enrollment date, and present patient id and trial site. -/
theorem c5_working_set_valid (rows : List RawRow) (c : Candidate)
    (hc : c ∈ workingSet rows) :
    c.age.isSome = true ∧ 0 ≤ c.age.getD 0 ∧ c.age.getD 0 ≤ 150 ∧
    c.enrollment_date.isSome = true ∧ c.patient_id.isSome = true ∧
    c.trial_site.isSome = true := by
  have hmask : invalidMask c = false := by
    simp only [workingSet, List.mem_filter, Bool.not_eq_true'] at hc
    exact hc.2
  simp only [invalidMask, Bool.or_eq_false_iff] at hmask
  obtain ⟨⟨⟨h1, h2⟩, h3⟩, h4⟩ := hmask
  rcases hA : c.age with _ | q
  · rw [hA] at h2
    simp [ageInvalid] at h2
  · rw [hA] at h2
    simp only [ageInvalid, Bool.or_eq_false_iff, decide_eq_false_iff_not,
      not_lt] at h2
    refine ⟨by simp [hA], by simp [hA, h2.1], by simp [hA, h2.2], ?_, ?_, ?_⟩
    · cases hE : c.enrollment_date with
      | none => rw [hE] at h1; simp at h1
      | some v => simp [hE]
    · cases hP : c.patient_id with
      | none => rw [hP] at h3; simp at h3
      | some v => simp [hP]
    · cases hS : c.trial_site with
      | none => rw [hS] at h4; simp at h4
      | some v => simp [hS]

/-- Witness for C5 at a concrete one-row input. -/
theorem c5_working_set_valid_witness :
    (parseRow rowValid).age.isSome = true ∧
    0 ≤ (parseRow rowValid).age.getD 0 ∧
    (parseRow rowValid).age.getD 0 ≤ 150 ∧
    (parseRow rowValid).enrollment_date.isSome = true ∧
    (parseRow rowValid).patient_id.isSome = true ∧
    (parseRow rowValid).trial_site.isSome = true :=
  c5_working_set_valid [rowValid] (parseRow rowValid) (by decide)

/-- The ordered check table of the validator loop (source lines 103-110):
one (predicate, reason) pair per rule, in the fixed check order. -/
def checkTable (f : Bool) (c : Candidate) : List (Bool × String) :=
  [(c.enrollment_date.isNone, "Invalid enrollment date"),
   (ageInvalid c.age, ageReason f c.age),
   (c.patient_id.isNone, "Missing patient ID"),
   (c.trial_site.isNone, "Missing trial site")]

/-- Claim C6: for every invalid candidate record the reason list is exactly
the reasons of the failing predicates, one entry per failing predicate, in
the fixed order date, age, patient id, trial site, and it is never empty. -/
theorem c6_reasons_fixed_order (f : Bool) (c : Candidate)
    (h : invalidMask c = true) :
    reasonsOf f c ≠ [] ∧
    reasonsOf f c = ((checkTable f c).filter (fun p => p.1)).map (fun p => p.2) ∧
    (reasonsOf f c).length = (checkTable f c).countP (fun p => p.1) := by
  simp only [reasonsOf, checkTable]
  cases h1 : c.enrollment_date.isNone <;>
  cases h2 : ageInvalid c.age <;>
  cases h3 : c.patient_id.isNone <;>
  cases h4 : c.trial_site.isNone <;>
  simp_all [invalidMask, List.countP_cons]

/-- Witness for C6 at a concrete invalid candidate record. -/
theorem c6_reasons_fixed_order_witness :
    reasonsOf true cNoAge ≠ [] ∧
    reasonsOf true cNoAge =
      ((checkTable true cNoAge).filter (fun p => p.1)).map (fun p => p.2) ∧
    (reasonsOf true cNoAge).length =
      (checkTable true cNoAge).countP (fun p => p.1) :=
  c6_reasons_fixed_order true cNoAge (by decide)

/-- Claim C1 as amended: for every candidate record with an invalid age, the
reason list contains the age reason built from the **coerced** age value,
and when the age is unparseable that reason is the literal
`Invalid age: nan` — not the original source text. -/
theorem c1_invalid_age_reason (f : Bool) (c : Candidate)
    (h : ageInvalid c.age = true) :
    ageReason f c.age ∈ reasonsOf f c ∧
    (c.age = none → ageReason f c.age = "Invalid age: nan") := by
  constructor
  · simp [reasonsOf, h]
  · intro hn
    rw [hn]
    rfl

/-- Witness for the amended C1 at a concrete unparseable-age record. -/
theorem c1_invalid_age_reason_witness :
    ageReason true cNoAge.age ∈ reasonsOf true cNoAge ∧
    (cNoAge.age = none → ageReason true cNoAge.age = "Invalid age: nan") :=
  c1_invalid_age_reason true cNoAge (by decide)

/-- Counterexample to C1 as stated: a row whose age text is `abc` gets the
reason list `["Invalid age: nan"]` — the coerced value, not the claimed
`"Invalid age: abc"` built from the raw text. -/
theorem c1_raw_age_text_not_reported :
    (invalidSet [rowAbc]).map (fun p => p.2) = [["Invalid age: nan"]] ∧
    ¬ ("Invalid age: abc" ∈ reasonsOf (ageColIsFloat [rowAbc]) (parseRow rowAbc)) := by
  decide

/-- Claim C7: once the schema check has passed, the pipeline fails exactly
when the WorkingSet is empty; in that case the InvalidSet is still carried
in the result, and any non-empty WorkingSet yields success regardless of
how many records were invalid. -/
theorem c7_empty_working_set_only_fatal (cols : List String)
    (rows : List RawRow) (h : missingCols cols = []) :
    (isFailure (loadAndValidate cols rows) = true ↔ workingSet rows = []) ∧
    (workingSet rows = [] →
      loadAndValidate cols rows = .emptyWorkingSet (invalidSet rows)) ∧
    (workingSet rows ≠ [] →
      loadAndValidate cols rows = .ok (workingSet rows) (invalidSet rows)) := by
  by_cases hw : workingSet rows = [] <;>
  simp [loadAndValidate, h, isFailure, hw, List.isEmpty_iff]

/-- Witness for C7 at the full schema and a single all-invalid row. -/
theorem c7_empty_working_set_only_fatal_witness :
    (isFailure (loadAndValidate requiredCols [rowAbc]) = true ↔
      workingSet [rowAbc] = []) ∧
    (workingSet [rowAbc] = [] →
      loadAndValidate requiredCols [rowAbc] = .emptyWorkingSet (invalidSet [rowAbc])) ∧
    (workingSet [rowAbc] ≠ [] →
      loadAndValidate requiredCols [rowAbc] = .ok (workingSet [rowAbc]) (invalidSet [rowAbc])) :=
  c7_empty_working_set_only_fatal requiredCols [rowAbc] (by decide)

/-- Claim C2 as amended: every age strictly between the outer edges
(0 < age ≤ 150) falls in exactly one cut interval, and `pd.cut` labels it
with the matching label; the boundary age 0, although valid, is in no
bucket (see the counterexample). -/
theorem c2_age_buckets_amended (q : ℚ) (h0 : 0 < q) (h1 : q ≤ 150) :
    memBucket q (bucketIdx q) ∧ bucketIdx q < 4 ∧
    (List.range 4).countP (fun i => decide (memBucket q i)) = 1 ∧
    ageGroupOf q = some (bucketLabels.getD (bucketIdx q) "") := by
  have hrange : List.range 4 = [0, 1, 2, 3] := rfl
  rcases le_or_lt q 35 with h35 | h35
  · have hidx : bucketIdx q = 0 := by simp [bucketIdx, h35]
    have hm : memBucket q 0 := ⟨h0, h35⟩
    have hn1 : ¬ memBucket q 1 := fun hh => absurd hh.1 (not_lt.mpr h35)
    have hn2 : ¬ memBucket q 2 := fun hh =>
      absurd hh.1 (not_lt.mpr (h35.trans (by norm_num [bucketEdges])))
    have hn3 : ¬ memBucket q 3 := fun hh =>
      absurd hh.1 (not_lt.mpr (h35.trans (by norm_num [bucketEdges])))
    refine ⟨hidx ▸ hm, by rw [hidx]; norm_num, ?_, ?_⟩
    · rw [hrange]
      simp [List.countP_cons, hm, hn1, hn2, hn3]
    · rw [hidx]
      simp only [ageGroupOf]
      rw [if_pos ⟨h0, h35⟩]
      rfl
  · rcases le_or_lt q 50 with h50 | h50
    · have hidx : bucketIdx q = 1 := by simp [bucketIdx, not_le.mpr h35, h50]
      have hm : memBucket q 1 := ⟨h35, h50⟩
      have hn0 : ¬ memBucket q 0 := fun hh => absurd hh.2 (not_le.mpr h35)
      have hn2 : ¬ memBucket q 2 := fun hh =>
        absurd hh.1 (not_lt.mpr (h50.trans (by norm_num [bucketEdges])))
      have hn3 : ¬ memBucket q 3 := fun hh =>
        absurd hh.1 (not_lt.mpr (h50.trans (by norm_num [bucketEdges])))
      refine ⟨hidx ▸ hm, by rw [hidx]; norm_num, ?_, ?_⟩
      · rw [hrange]
        simp [List.countP_cons, hm, hn0, hn2, hn3]
      · rw [hidx]
        simp only [ageGroupOf]
        rw [if_neg (fun hh => absurd hh.2 (not_le.mpr h35)), if_pos ⟨h35, h50⟩]
        rfl
    · rcases le_or_lt q 65 with h65 | h65
      · have hidx : bucketIdx q = 2 := by
          simp [bucketIdx, not_le.mpr h35, not_le.mpr h50, h65]
        have hm : memBucket q 2 := ⟨h50, h65⟩
        have hn0 : ¬ memBucket q 0 := fun hh => absurd hh.2 (not_le.mpr h35)
        have hn1 : ¬ memBucket q 1 := fun hh => absurd hh.2 (not_le.mpr h50)
        have hn3 : ¬ memBucket q 3 := fun hh =>
          absurd hh.1 (not_lt.mpr (h65.trans (by norm_num [bucketEdges])))
        refine ⟨hidx ▸ hm, by rw [hidx]; norm_num, ?_, ?_⟩
        · rw [hrange]
          simp [List.countP_cons, hm, hn0, hn1, hn3]
        · rw [hidx]
          simp only [ageGroupOf]
          rw [if_neg (fun hh => absurd hh.2 (not_le.mpr h35)),
              if_neg (fun hh => absurd hh.2 (not_le.mpr h50)), if_pos ⟨h50, h65⟩]
          rfl
      · have hidx : bucketIdx q = 3 := by
          simp [bucketIdx, not_le.mpr h35, not_le.mpr h50, not_le.mpr h65]
        have hm : memBucket q 3 := ⟨h65, h1⟩
        have hn0 : ¬ memBucket q 0 := fun hh => absurd hh.2 (not_le.mpr h35)
        have hn1 : ¬ memBucket q 1 := fun hh => absurd hh.2 (not_le.mpr h50)
        have hn2 : ¬ memBucket q 2 := fun hh => absurd hh.2 (not_le.mpr h65)
        refine ⟨hidx ▸ hm, by rw [hidx]; norm_num, ?_, ?_⟩
        · rw [hrange]
          simp [List.countP_cons, hm, hn0, hn1, hn2]
        · rw [hidx]
          simp only [ageGroupOf]
          rw [if_neg (fun hh => absurd hh.2 (not_le.mpr h35)),
              if_neg (fun hh => absurd hh.2 (not_le.mpr h50)),
              if_neg (fun hh => absurd hh.2 (not_le.mpr h65)), if_pos ⟨h65, h1⟩]
          rfl

/-- Witness for the amended C2 at the concrete age 20. -/
theorem c2_age_buckets_witness :
    memBucket 20 (bucketIdx 20) ∧ bucketIdx 20 < 4 ∧
    (List.range 4).countP (fun i => decide (memBucket (20 : ℚ) i)) = 1 ∧
    ageGroupOf 20 = some (bucketLabels.getD (bucketIdx 20) "") :=
  c2_age_buckets_amended 20 (by norm_num) (by norm_num)

/-- Counterexample to C2 as stated: the age 0 passes the validator (it is a
valid age) yet `pd.cut` with left-exclusive edges assigns it to no bucket. -/
theorem c2_age_zero_unbucketed :
    ageInvalid (some 0) = false ∧ ageGroupOf 0 = none ∧
    ¬ memBucket 0 0 ∧ ¬ memBucket 0 1 ∧ ¬ memBucket 0 2 ∧ ¬ memBucket 0 3 := by
  decide

/-- Claim C3 as amended: the statistics computation never writes the state,
the cross-analysis leaves the frame records and the invalid set unchanged
(it only writes the derived `age_group` column), statistics output is
unaffected by that write, and re-running the cross-analysis is idempotent in
both state and output. -/
theorem c3_views_fresh_amended (s : AnalyzerState) :
    (getAdvancedAnalysis s).1.df = s.df ∧
    (getAdvancedAnalysis s).1.invalid = s.invalid ∧
    calculateStatistics ((getAdvancedAnalysis s).1) = calculateStatistics s ∧
    getAdvancedAnalysis ((getAdvancedAnalysis s).1) = getAdvancedAnalysis s := by
  rcases s with ⟨df, col, inv⟩
  cases df with
  | none => simp [getAdvancedAnalysis]
  | some l =>
    cases hl : l.isEmpty <;>
    simp [getAdvancedAnalysis, calculateStatistics, hl]

/-- Counterexample to C3 as stated: running the cross-analysis on a loaded
state changes the stored frame in place (the derived `age_group` column is
written into it), so the call does not leave the analyzer state unchanged. -/
theorem c3_cross_analysis_mutates_state :
    (getAdvancedAnalysis sValid).1 ≠ sValid := by
  decide

/-- Claim C8: on a loaded non-empty WorkingSet the statistics report exists,
and each adverse-event stratum reports the rounded percentage
`100 · completed / size` when its size is positive and the total rate `0`
when it is empty, so the stratified output is always a number. -/
theorem c8_stratified_rates_total (s : AnalyzerState) (l : List Candidate)
    (hdf : s.df = some l) (hne : l ≠ []) :
    calculateStatistics s = some (computeStats l s.invalid) ∧
    (0 < (l.filter (fun c => c.adverse_event)).length →
      (computeStats l s.invalid).completion_rate_with_adverse_percent =
        round2 ((countCompleted (l.filter (fun c => c.adverse_event)) : ℚ) /
          ((l.filter (fun c => c.adverse_event)).length : ℚ) * 100)) ∧
    ((l.filter (fun c => c.adverse_event)).length = 0 →
      (computeStats l s.invalid).completion_rate_with_adverse_percent = 0) ∧
    (0 < (l.filter (fun c => !c.adverse_event)).length →
      (computeStats l s.invalid).completion_rate_without_adverse_percent =
        round2 ((countCompleted (l.filter (fun c => !c.adverse_event)) : ℚ) /
          ((l.filter (fun c => !c.adverse_event)).length : ℚ) * 100)) ∧
    ((l.filter (fun c => !c.adverse_event)).length = 0 →
      (computeStats l s.invalid).completion_rate_without_adverse_percent = 0) := by
  refine ⟨?_, fun h => ?_, fun h => ?_, fun h => ?_, fun h => ?_⟩
  · cases l with
    | nil => exact absurd rfl hne
    | cons a t => simp [calculateStatistics, hdf]
  · simp only [computeStats]
    rw [if_pos h]
  · simp only [computeStats]
    rw [if_neg (by omega)]
  · simp only [computeStats]
    rw [if_pos h]
  · simp only [computeStats]
    rw [if_neg (by omega)]

/-- Witness for C8 at a one-record state with no adverse events: the
adverse stratum is empty and reports 0, the other stratum reports its
rounded rate. -/
theorem c8_stratified_rates_total_witness :
    calculateStatistics sValid = some (computeStats [cValid] sValid.invalid) ∧
    (0 < ([cValid].filter (fun c => c.adverse_event)).length →
      (computeStats [cValid] sValid.invalid).completion_rate_with_adverse_percent =
        round2 ((countCompleted ([cValid].filter (fun c => c.adverse_event)) : ℚ) /
          (([cValid].filter (fun c => c.adverse_event)).length : ℚ) * 100)) ∧
    (([cValid].filter (fun c => c.adverse_event)).length = 0 →
      (computeStats [cValid] sValid.invalid).completion_rate_with_adverse_percent = 0) ∧
    (0 < ([cValid].filter (fun c => !c.adverse_event)).length →
      (computeStats [cValid] sValid.invalid).completion_rate_without_adverse_percent =
        round2 ((countCompleted ([cValid].filter (fun c => !c.adverse_event)) : ℚ) /
          (([cValid].filter (fun c => !c.adverse_event)).length : ℚ) * 100)) ∧
    (([cValid].filter (fun c => !c.adverse_event)).length = 0 →
      (computeStats [cValid] sValid.invalid).completion_rate_without_adverse_percent = 0) :=
  c8_stratified_rates_total sValid [cValid] rfl (by decide)

/-- Claim C9: site grading is a total function of the completion rate with
closed lower thresholds 90 / 70 / 50; the grade strings carry the letter
with its descriptive suffix (`A (Excellent)` and so on). -/
theorem c9_site_grading_thresholds (rate : ℚ) :
    (90 ≤ rate → siteGrade rate = "A (Excellent)") ∧
    (70 ≤ rate → rate < 90 → siteGrade rate = "B (Good)") ∧
    (50 ≤ rate → rate < 70 → siteGrade rate = "C (Fair)") ∧
    (rate < 50 → siteGrade rate = "D (Poor)") := by
  refine ⟨fun h => ?_, fun h1 h2 => ?_, fun h1 h2 => ?_, fun h => ?_⟩
  · unfold siteGrade
    rw [if_pos h]
  · unfold siteGrade
    rw [if_neg (not_le.mpr h2), if_pos h1]
  · unfold siteGrade
    rw [if_neg (not_le.mpr (h2.trans_le (by norm_num))),
        if_neg (not_le.mpr h2), if_pos h1]
  · unfold siteGrade
    rw [if_neg (not_le.mpr (h.trans_le (by norm_num))),
        if_neg (not_le.mpr (h.trans_le (by norm_num))),
        if_neg (not_le.mpr h)]

/-- Witness for C9 at the boundary rates 90, 89.99, 70 and 49.99. -/
theorem c9_site_grading_thresholds_witness :
    siteGrade 90 = "A (Excellent)" ∧
    siteGrade (mkRat 8999 100) = "B (Good)" ∧
    siteGrade 70 = "B (Good)" ∧
    siteGrade (mkRat 4999 100) = "D (Poor)" :=
  ⟨(c9_site_grading_thresholds 90).1 (by norm_num),
   (c9_site_grading_thresholds (mkRat 8999 100)).2.1 (by decide) (by decide),
   (c9_site_grading_thresholds 70).2.1 (by norm_num) (by norm_num),
   (c9_site_grading_thresholds (mkRat 4999 100)).2.2.2 (by decide)⟩

/-- Claim C10: with no data loaded, or an empty WorkingSet, the statistics
computation returns the empty report (`{}`, modelled as `none`) instead of
raising, and so does the cross-analysis, which also leaves the state
untouched in that case. -/
theorem c10_empty_stats_mapping (s : AnalyzerState)
    (h : s.df = none ∨ s.df = some []) :
    calculateStatistics s = none ∧ (getAdvancedAnalysis s).2 = none ∧
    (getAdvancedAnalysis s).1 = s := by
  rcases h with h | h <;> simp [calculateStatistics, getAdvancedAnalysis, h]

/-- Witness for C10 at the freshly constructed analyzer state. -/
theorem c10_empty_stats_mapping_witness :
    calculateStatistics sNoData = none ∧ (getAdvancedAnalysis sNoData).2 = none ∧
    (getAdvancedAnalysis sNoData).1 = sNoData :=
  c10_empty_stats_mapping sNoData (Or.inl rfl)
